import Mathlib

/-!
Shallow embedding of `src/vs/workbench/api/common/extHostWebviewView.ts`.

The file defines two classes:

* `ExtHostWebviewView`, a per-view wrapper holding a handle, a view type, a
  webview, a disposed flag, a visibility flag and an optional title.  Its
  methods may throw (modelled with `Except String`), fire events on its two
  emitters (modelled as a returned list of `ViewEvent`s) and send RPC
  messages through the main-thread proxy (modelled as a returned list of
  `Rpc` messages).

* `ExtHostWebviewViews`, the registry object holding the `_viewProviders`
  map (view type to provider registration) and the `_webviewViews` map
  (handle to view wrapper).  Both maps are modelled as association lists.

The main-thread proxy, the `ExtHostWebviews.createNewWebview` factory, the
extension description and the provider objects are external collaborators:
they are modelled as opaque data (`Nat` identities, the webview by the
handle it is created for) and the calls into them are recorded as effects.
-/

/-- RPC messages the file sends through the `MainThreadWebviewsShape` proxy. -/
inductive Rpc where
  | registerWebviewViewProvider (viewType : String)
  | unregisterWebviewViewProvider (viewType : String)
  | setWebviewViewTitle (handle : String) (title : Option String)
deriving DecidableEq

/-- Events fired on the two emitters of `ExtHostWebviewView`. -/
inductive ViewEvent where
  | onDidChangeVisibility
  | onDidDispose
deriving DecidableEq

/-- State of an `ExtHostWebviewView` instance: the private fields
`#handle`, `#viewType`, `#webview`, `#isDisposed`, `#isVisible`, `#title`.
The `#proxy` field is modelled by recording sent `Rpc` messages; the
webview collaborator is identified by the handle it was created for. -/
structure ViewState where
  handle : String
  viewType : String
  webview : String
  isDisposed : Bool
  isVisible : Bool
  title : Option String
deriving DecidableEq

/-- `ExtHostWebviewView.dispose`: a no-op on a disposed view, otherwise it
sets `#isDisposed` and fires `#onDidDispose` once. -/
def ViewState.dispose (v : ViewState) : ViewState × List ViewEvent :=
  if v.isDisposed then (v, [])
  else ({ v with isDisposed := true }, [ViewEvent.onDidDispose])

/-- The `title` getter: `assertNotDisposed` then return `#title`. -/
def ViewState.getTitle (v : ViewState) : Except String (Option String) :=
  if v.isDisposed then Except.error "Webview is disposed"
  else Except.ok v.title

/-- The `title` setter: `assertNotDisposed`; when the value differs from
`#title`, store it and send `$setWebviewViewTitle` to the proxy. -/
def ViewState.setTitle (v : ViewState) (value : Option String) :
    Except String (ViewState × List Rpc) :=
  if v.isDisposed then Except.error "Webview is disposed"
  else if v.title ≠ value then
    Except.ok ({ v with title := value }, [Rpc.setWebviewViewTitle v.handle value])
  else Except.ok (v, [])

/-- Caller view of the `title` setter: a thrown `assertNotDisposed` leaves
the object unmutated and sends nothing, because the throw happens before
any assignment in the setter body. -/
def ViewState.setTitleRun (v : ViewState) (value : Option String) :
    ViewState × List Rpc :=
  match v.setTitle value with
  | Except.error _ => (v, [])
  | Except.ok r => r

/-- The `visible` getter: returns `#isVisible`, no disposal check. -/
def ViewState.visible (v : ViewState) : Bool := v.isVisible

/-- The `webview` getter: returns `#webview`, no disposal check. -/
def ViewState.getWebview (v : ViewState) : String := v.webview

/-- The `viewType` getter: returns `#viewType`, no disposal check. -/
def ViewState.getViewType (v : ViewState) : String := v.viewType

/-- `ExtHostWebviewView._setVisible`: a no-op when the value equals
`#isVisible`, otherwise it stores the value and fires
`#onDidChangeVisibility`. -/
def ViewState._setVisible (v : ViewState) (visible : Bool) :
    ViewState × List ViewEvent :=
  if visible = v.isVisible then (v, [])
  else ({ v with isVisible := visible }, [ViewEvent.onDidChangeVisibility])

/-- Effects observable outside `ExtHostWebviewViews`: proxy RPC messages,
the `createNewWebview` call, the callback into the registered provider
(carrying the view it receives, the serialized state and the cancellation
token), and events fired on a view wrapper identified by its handle. -/
inductive Effect where
  | rpc (r : Rpc)
  | createWebview (handle : String) (extension : Nat)
  | resolveCall (provider : Nat) (view : ViewState) (st : Nat) (cancellation : Nat)
  | viewEvent (handle : String) (e : ViewEvent)
deriving DecidableEq

/-- An entry of the `_viewProviders` map: the provider and the extension
that registered it, both opaque collaborators identified by a `Nat`. -/
structure ProviderEntry where
  provider : Nat
  extension : Nat
deriving DecidableEq

/-- State of the `ExtHostWebviewViews` object: the `_viewProviders` and
`_webviewViews` maps, as association lists. -/
structure ViewsState where
  viewProviders : List (String × ProviderEntry)
  webviewViews : List (String × ViewState)
deriving DecidableEq

/-- Lookup in an association list, the model of `Map.get` / `Map.has`. -/
def lookupAL {α : Type} : List (String × α) → String → Option α
  | [], _ => none
  | (k, v) :: rest, key => if k = key then some v else lookupAL rest key

/-- Remove every entry with the given key, the model of `Map.delete`
(a `Map` never holds two entries with the same key). -/
def eraseKey {α : Type} : List (String × α) → String → List (String × α)
  | [], _ => []
  | (k, v) :: rest, key =>
    if k = key then eraseKey rest key else (k, v) :: eraseKey rest key

/-- Add or overwrite the entry with the given key, the model of `Map.set`. -/
def setKey {α : Type} (l : List (String × α)) (key : String) (v : α) :
    List (String × α) :=
  (key, v) :: eraseKey l key

/-- Update the value stored under the given key in place (keys unchanged),
the model of mutating the object a map entry points to. -/
def updateKey {α : Type} : List (String × α) → String → (α → α) → List (String × α)
  | [], _, _ => []
  | (k, v) :: rest, key, f =>
    if k = key then (k, f v) :: updateKey rest key f
    else (k, v) :: updateKey rest key f

/-- The keys of an association list. -/
def keys {α : Type} (l : List (String × α)) : List String := l.map Prod.fst

/-- `ExtHostWebviewViews.registerWebviewViewProvider`: throws when a
provider for the view type is already present, otherwise stores the entry
and forwards `$registerWebviewViewProvider`.  (The returned `Disposable`
is modelled by `ViewsState.unregisterWebviewViewProvider` below.) -/
def ViewsState.registerWebviewViewProvider (s : ViewsState) (extension : Nat)
    (viewType : String) (provider : Nat) :
    Except String (ViewsState × List Rpc) :=
  if (lookupAL s.viewProviders viewType).isSome then
    Except.error ("View provider for " ++ viewType ++ " already registered")
  else
    Except.ok
      ({ s with viewProviders := (viewType, ⟨provider, extension⟩) :: s.viewProviders },
        [Rpc.registerWebviewViewProvider viewType])

/-- The callback of the `Disposable` returned by
`registerWebviewViewProvider`: deletes the map entry and forwards
`$unregisterWebviewViewProvider`. -/
def ViewsState.unregisterWebviewViewProvider (s : ViewsState) (viewType : String) :
    ViewsState × List Rpc :=
  ({ s with viewProviders := eraseKey s.viewProviders viewType },
    [Rpc.unregisterWebviewViewProvider viewType])

/-- `ExtHostWebviewViews.$resolveWebviewView`: throws when no provider is
registered for the view type; otherwise creates a webview for the handle,
builds the wrapper (not disposed, visible, no title), stores it under the
handle in `_webviewViews`, and calls the provider with the wrapper, the
state and the cancellation token. -/
def ViewsState.resolveWebviewView (s : ViewsState) (webviewHandle : String)
    (viewType : String) (st : Nat) (cancellation : Nat) :
    Except String (ViewsState × List Effect) :=
  match lookupAL s.viewProviders viewType with
  | none => Except.error ("No view provider found for " ++ viewType)
  | some entry =>
    let revivedView : ViewState :=
      { handle := webviewHandle, viewType := viewType, webview := webviewHandle,
        isDisposed := false, isVisible := true, title := none }
    Except.ok
      ({ s with webviewViews := setKey s.webviewViews webviewHandle revivedView },
        [Effect.createWebview webviewHandle entry.extension,
          Effect.resolveCall entry.provider revivedView st cancellation])

/-- `ExtHostWebviewViews.getWebviewView`: lookup in `_webviewViews` or
throw. -/
def ViewsState.getWebviewView (s : ViewsState) (handle : String) :
    Except String ViewState :=
  match lookupAL s.webviewViews handle with
  | none => Except.error "No webview found"
  | some entry => Except.ok entry

/-- `ExtHostWebviewViews.$onDidChangeWebviewViewVisibility`: looks the
wrapper up (or throws) and calls `_setVisible` on it.  The in-place
mutation of the shared wrapper object is modelled by updating the map
entry; the fired events come from the wrapper's emitter. -/
def ViewsState.onDidChangeWebviewViewVisibility (s : ViewsState)
    (webviewHandle : String) (visible : Bool) :
    Except String (ViewsState × List Effect) :=
  match s.getWebviewView webviewHandle with
  | Except.error e => Except.error e
  | Except.ok webviewView =>
    Except.ok
      ({ s with webviewViews :=
          updateKey s.webviewViews webviewHandle (fun w => (w._setVisible visible).1) },
        ((webviewView._setVisible visible).2).map (Effect.viewEvent webviewHandle))

/-- `ExtHostWebviewViews.$disposeWebviewView`: looks the wrapper up (or
throws), deletes the map entry, then disposes the wrapper. -/
def ViewsState.disposeWebviewView (s : ViewsState) (webviewHandle : String) :
    Except String (ViewsState × List Effect) :=
  match s.getWebviewView webviewHandle with
  | Except.error e => Except.error e
  | Except.ok webviewView =>
    Except.ok
      ({ s with webviewViews := eraseKey s.webviewViews webviewHandle },
        ((webviewView.dispose).2).map (Effect.viewEvent webviewHandle))

/-- The operations that drive an `ExtHostWebviewViews` object: the public
method, the `Disposable` callback, the three `$`-handlers called over RPC,
and a direct `ExtHostWebviewView.dispose` call on the wrapper stored under
a handle. -/
inductive Op where
  | register (extension : Nat) (viewType : String) (provider : Nat)
  | unregister (viewType : String)
  | resolve (webviewHandle : String) (viewType : String) (st : Nat) (cancellation : Nat)
  | visibility (webviewHandle : String) (visible : Bool)
  | disposeView (webviewHandle : String)
  | viewDispose (webviewHandle : String)
deriving DecidableEq

/-- One operation applied to the registry state.  A thrown guard-clause
exception propagates to the caller and leaves the state unchanged (every
throw in the source happens before any mutation), recorded here as an
identity step with no effects. -/
def step (s : ViewsState) : Op → ViewsState × List Effect
  | Op.register ext vt p =>
    match s.registerWebviewViewProvider ext vt p with
    | Except.error _ => (s, [])
    | Except.ok (s', rpcs) => (s', rpcs.map Effect.rpc)
  | Op.unregister vt =>
    let r := s.unregisterWebviewViewProvider vt
    (r.1, r.2.map Effect.rpc)
  | Op.resolve h vt st tok =>
    match s.resolveWebviewView h vt st tok with
    | Except.error _ => (s, [])
    | Except.ok r => r
  | Op.visibility h b =>
    match s.onDidChangeWebviewViewVisibility h b with
    | Except.error _ => (s, [])
    | Except.ok r => r
  | Op.disposeView h =>
    match s.disposeWebviewView h with
    | Except.error _ => (s, [])
    | Except.ok r => r
  | Op.viewDispose h =>
    ({ s with webviewViews := updateKey s.webviewViews h (fun v => (v.dispose).1) },
      match lookupAL s.webviewViews h with
      | none => []
      | some v => ((v.dispose).2).map (Effect.viewEvent h))

/-- A fresh `ExtHostWebviewViews` object: both maps empty. -/
def initState : ViewsState := { viewProviders := [], webviewViews := [] }

/-- Run a list of operations from a given state. -/
def runFrom (s : ViewsState) : List Op → ViewsState
  | [] => s
  | op :: rest => runFrom (step s op).1 rest

/-- Run a list of operations from the fresh state. -/
def runOps (ops : List Op) : ViewsState := runFrom initState ops

/-- The entries of `_webviewViews` that store a live (not disposed)
wrapper under the given handle. -/
def liveViews (l : List (String × ViewState)) (h : String) :
    List (String × ViewState) :=
  l.filter (fun p => p.1 = h ∧ p.2.isDisposed = false)

/-- Number of entries stored under the given key. -/
def countKey {α : Type} (l : List (String × α)) (key : String) : Nat :=
  (l.filter (fun p => p.1 = key)).length

/-- A concrete sample view wrapper used in witness statements: handle `h`,
view type `a`, fresh (not disposed, visible, no title). -/
def sampleView : ViewState :=
  { handle := "h", viewType := "a", webview := "h",
    isDisposed := false, isVisible := true, title := none }

/-- A concrete registry state with provider `1` of extension `2`
registered for view type `a`, used in witness statements. -/
def sampleRegistry : ViewsState :=
  { viewProviders := [("a", ⟨1, 2⟩)], webviewViews := [] }

/-! ### Association-list lemmas -/

theorem eraseKey_sublist {α : Type} (l : List (String × α)) (k : String) :
    List.Sublist (eraseKey l k) l := by
  induction l with
  | nil => simp [eraseKey]
  | cons p rest ih =>
    cases p with
    | mk k' v =>
      by_cases hk : k' = k
      · simpa [eraseKey, hk] using List.Sublist.cons (k', v) ih
      · simpa [eraseKey, hk] using List.Sublist.cons₂ (k', v) ih

theorem not_mem_keys_eraseKey {α : Type} (l : List (String × α)) (k : String) :
    k ∉ keys (eraseKey l k) := by
  induction l with
  | nil => simp [eraseKey, keys]
  | cons p rest ih =>
    cases p with
    | mk k' v =>
      by_cases hk : k' = k
      · simpa [eraseKey, hk] using ih
      · simp only [eraseKey, if_neg hk, keys, List.map_cons, List.mem_cons, not_or]
        exact ⟨fun e => hk e.symm, ih⟩

theorem nodup_keys_eraseKey {α : Type} (l : List (String × α)) (k : String)
    (h : (keys l).Nodup) : (keys (eraseKey l k)).Nodup :=
  List.Nodup.sublist (List.Sublist.map Prod.fst (eraseKey_sublist l k)) h

theorem nodup_keys_setKey {α : Type} (l : List (String × α)) (k : String) (v : α)
    (h : (keys l).Nodup) : (keys (setKey l k v)).Nodup := by
  simp only [setKey, keys, List.map_cons]
  exact List.nodup_cons.2 ⟨not_mem_keys_eraseKey l k, nodup_keys_eraseKey l k h⟩

theorem lookupAL_eraseKey_self {α : Type} (l : List (String × α)) (k : String) :
    lookupAL (eraseKey l k) k = none := by
  induction l with
  | nil => rfl
  | cons p rest ih =>
    cases p with
    | mk k' v =>
      by_cases hk : k' = k
      · simpa [eraseKey, hk] using ih
      · simpa [eraseKey, lookupAL, hk] using ih

theorem keys_updateKey {α : Type} (l : List (String × α)) (k : String) (f : α → α) :
    keys (updateKey l k f) = keys l := by
  induction l with
  | nil => rfl
  | cons p rest ih =>
    cases p with
    | mk k' v =>
      by_cases hk : k' = k
      · simp only [keys] at ih
        simp [updateKey, keys, hk, ih]
      · simp only [keys] at ih
        simp [updateKey, keys, hk, ih]

theorem lookupAL_updateKey_self {α : Type} (l : List (String × α)) (k : String)
    (f : α → α) :
    lookupAL (updateKey l k f) k = Option.map f (lookupAL l k) := by
  induction l with
  | nil => rfl
  | cons p rest ih =>
    cases p with
    | mk k' v =>
      by_cases hk : k' = k
      · simp [updateKey, lookupAL, hk]
      · simp [updateKey, lookupAL, hk, ih]

theorem not_mem_keys_of_lookupAL_none {α : Type} (l : List (String × α)) (k : String)
    (h : lookupAL l k = none) : k ∉ keys l := by
  induction l with
  | nil => simp [keys]
  | cons p rest ih =>
    cases p with
    | mk k' v =>
      by_cases hk : k' = k
      · simp [lookupAL, hk] at h
      · simp only [lookupAL, if_neg hk] at h
        simp only [keys, List.map_cons, List.mem_cons, not_or]
        exact ⟨fun e => hk e.symm, ih h⟩

theorem countKey_eq_zero {α : Type} (l : List (String × α)) (k : String)
    (h : k ∉ keys l) : countKey l k = 0 := by
  induction l with
  | nil => rfl
  | cons p rest ih =>
    cases p with
    | mk k' v =>
      simp only [keys, List.map_cons, List.mem_cons, not_or] at h
      have hk : ¬(k' = k) := fun e => h.1 e.symm
      have h0 := ih h.2
      simp only [countKey] at h0 ⊢
      rw [List.filter_cons]
      simp [hk, h0]

theorem countKey_le_one {α : Type} (l : List (String × α)) (k : String)
    (h : (keys l).Nodup) : countKey l k ≤ 1 := by
  induction l with
  | nil => simp [countKey]
  | cons p rest ih =>
    cases p with
    | mk k' v =>
      simp only [keys, List.map_cons, List.nodup_cons] at h
      by_cases hk : k' = k
      · subst hk
        have h0 : countKey rest k' = 0 := countKey_eq_zero rest k' h.1
        simp only [countKey] at h0 ⊢
        rw [List.filter_cons]
        simp [h0]
      · have h1 := ih h.2
        simp only [countKey] at h1 ⊢
        rw [List.filter_cons]
        simpa [hk] using h1

theorem liveViews_length_le_countKey (l : List (String × ViewState)) (h : String) :
    (liveViews l h).length ≤ countKey l h := by
  simp only [liveViews, countKey]
  refine List.Sublist.length_le (List.monotone_filter_right l ?_)
  intro a ha
  simp only [decide_eq_true_eq] at ha ⊢
  exact ha.1

/-! ### Key uniqueness is preserved by every operation -/

theorem nodup_step_webviewViews (s : ViewsState) (op : Op)
    (h : (keys s.webviewViews).Nodup) : (keys (step s op).1.webviewViews).Nodup := by
  cases op with
  | register ext vt p =>
    by_cases hk : (lookupAL s.viewProviders vt).isSome
    · simpa [step, ViewsState.registerWebviewViewProvider, hk] using h
    · simpa [step, ViewsState.registerWebviewViewProvider, hk] using h
  | unregister vt => simpa [step, ViewsState.unregisterWebviewViewProvider] using h
  | resolve hd vt st tok =>
    cases hl : lookupAL s.viewProviders vt with
    | none => simpa [step, ViewsState.resolveWebviewView, hl] using h
    | some entry =>
      simp only [step, ViewsState.resolveWebviewView, hl]
      exact nodup_keys_setKey _ _ _ h
  | visibility hd b =>
    cases hl : lookupAL s.webviewViews hd with
    | none =>
      simpa [step, ViewsState.onDidChangeWebviewViewVisibility,
        ViewsState.getWebviewView, hl] using h
    | some v =>
      simp only [step, ViewsState.onDidChangeWebviewViewVisibility,
        ViewsState.getWebviewView, hl]
      simpa [keys_updateKey] using h
  | disposeView hd =>
    cases hl : lookupAL s.webviewViews hd with
    | none =>
      simpa [step, ViewsState.disposeWebviewView, ViewsState.getWebviewView, hl] using h
    | some v =>
      simp only [step, ViewsState.disposeWebviewView, ViewsState.getWebviewView, hl]
      exact nodup_keys_eraseKey _ _ h
  | viewDispose hd =>
    simp only [step]
    simpa [keys_updateKey] using h

theorem nodup_step_viewProviders (s : ViewsState) (op : Op)
    (h : (keys s.viewProviders).Nodup) : (keys (step s op).1.viewProviders).Nodup := by
  cases op with
  | register ext vt p =>
    cases hk : lookupAL s.viewProviders vt with
    | some entry => simpa [step, ViewsState.registerWebviewViewProvider, hk] using h
    | none =>
      simp only [step, ViewsState.registerWebviewViewProvider, hk, Option.isSome_none,
        Bool.false_eq_true, if_false, keys, List.map_cons]
      exact List.nodup_cons.2 ⟨not_mem_keys_of_lookupAL_none _ _ hk, h⟩
  | unregister vt =>
    simp only [step, ViewsState.unregisterWebviewViewProvider]
    exact nodup_keys_eraseKey _ _ h
  | resolve hd vt st tok =>
    cases hl : lookupAL s.viewProviders vt with
    | none => simpa [step, ViewsState.resolveWebviewView, hl] using h
    | some entry => simpa [step, ViewsState.resolveWebviewView, hl] using h
  | visibility hd b =>
    cases hl : lookupAL s.webviewViews hd with
    | none =>
      simpa [step, ViewsState.onDidChangeWebviewViewVisibility,
        ViewsState.getWebviewView, hl] using h
    | some v =>
      simpa [step, ViewsState.onDidChangeWebviewViewVisibility,
        ViewsState.getWebviewView, hl] using h
  | disposeView hd =>
    cases hl : lookupAL s.webviewViews hd with
    | none =>
      simpa [step, ViewsState.disposeWebviewView, ViewsState.getWebviewView, hl] using h
    | some v =>
      simpa [step, ViewsState.disposeWebviewView, ViewsState.getWebviewView, hl] using h
  | viewDispose hd => simpa [step] using h

theorem nodup_runFrom_webviewViews (ops : List Op) (s : ViewsState)
    (h : (keys s.webviewViews).Nodup) :
    (keys (runFrom s ops).webviewViews).Nodup := by
  induction ops generalizing s with
  | nil => simpa [runFrom] using h
  | cons op rest ih => exact ih _ (nodup_step_webviewViews s op h)

theorem nodup_runFrom_viewProviders (ops : List Op) (s : ViewsState)
    (h : (keys s.viewProviders).Nodup) :
    (keys (runFrom s ops).viewProviders).Nodup := by
  induction ops generalizing s with
  | nil => simpa [runFrom] using h
  | cons op rest ih => exact ih _ (nodup_step_viewProviders s op h)

/-! ### Claims -/

/-- Claim C1: for every sequence of operations on a fresh
`ExtHostWebviewViews` object (in particular `$resolveWebviewView`,
`$disposeWebviewView` and `ExtHostWebviewView.dispose`), each webview
handle maps to at most one live (not yet disposed) view wrapper in the
`_webviewViews` map. -/
theorem webviewViews_at_most_one_live (ops : List Op) (h : String) :
    (liveViews (runOps ops).webviewViews h).length ≤ 1 :=
  le_trans (liveViews_length_le_countKey _ _)
    (countKey_le_one _ _
      (nodup_runFrom_webviewViews ops initState (by simp [initState, keys])))

/-- Claim C2: `registerWebviewViewProvider` throws an already-registered
error exactly when a provider for the view type is present in the
`_viewProviders` map; a throwing call leaves the state unchanged and
sends nothing; and the map holds at most one provider per view type after
every operation sequence. -/
theorem registerWebviewViewProvider_spec (s : ViewsState) (ext : Nat)
    (vt : String) (p : Nat) :
    ((∃ e, s.registerWebviewViewProvider ext vt p = Except.error e) ↔
      (lookupAL s.viewProviders vt).isSome = true)
    ∧ ((lookupAL s.viewProviders vt).isSome = true →
        step s (Op.register ext vt p) = (s, []))
    ∧ (∀ ops, countKey (runOps ops).viewProviders vt ≤ 1) := by
  refine ⟨?_, ?_, ?_⟩
  · by_cases hk : (lookupAL s.viewProviders vt).isSome
    · simp [ViewsState.registerWebviewViewProvider, hk]
    · simp [ViewsState.registerWebviewViewProvider, hk]
  · intro hk
    simp [step, ViewsState.registerWebviewViewProvider, hk]
  · intro ops
    exact countKey_le_one _ _
      (nodup_runFrom_viewProviders ops initState (by simp [initState, keys]))

/-- Witness for `registerWebviewViewProvider_spec`: registering a second
provider for view type `a` leaves the state unchanged and sends nothing. -/
theorem registerWebviewViewProvider_spec_witness :
    step { viewProviders := [("a", ⟨1, 2⟩)], webviewViews := [] }
        (Op.register 2 "a" 3)
      = ({ viewProviders := [("a", ⟨1, 2⟩)], webviewViews := [] }, []) :=
  (registerWebviewViewProvider_spec
    { viewProviders := [("a", ⟨1, 2⟩)], webviewViews := [] } 2 "a" 3).2.1 (by decide)

/-- Claim C3: `$resolveWebviewView` throws a not-registered error exactly
when no provider is registered for the view type, and in that case the
state is unchanged and nothing happens: no webview is created, no wrapper
is added to `_webviewViews` and the provider callback is not invoked. -/
theorem resolveWebviewView_not_registered (s : ViewsState) (h vt : String)
    (st tok : Nat) :
    ((∃ e, s.resolveWebviewView h vt st tok = Except.error e) ↔
      lookupAL s.viewProviders vt = none)
    ∧ (lookupAL s.viewProviders vt = none →
        step s (Op.resolve h vt st tok) = (s, [])) := by
  constructor
  · cases hl : lookupAL s.viewProviders vt with
    | none => simp [ViewsState.resolveWebviewView, hl]
    | some entry => simp [ViewsState.resolveWebviewView, hl]
  · intro hl
    simp [step, ViewsState.resolveWebviewView, hl]

/-- Witness for `resolveWebviewView_not_registered`: resolving against the
fresh registry changes nothing and produces no effect. -/
theorem resolveWebviewView_not_registered_witness :
    step initState (Op.resolve "h" "a" 0 0) = (initState, []) :=
  (resolveWebviewView_not_registered initState "h" "a" 0 0).2 rfl

/-- Claim C4: on a view on which `dispose` has been called, both reading
and assigning `title` throw the disposed error, and the throwing
assignment leaves the view unchanged and sends no RPC message. -/
theorem title_after_dispose (v : ViewState) (val : Option String) :
    ((v.dispose).1.getTitle = Except.error "Webview is disposed")
    ∧ ((v.dispose).1.setTitle val = Except.error "Webview is disposed")
    ∧ (ViewState.setTitleRun (v.dispose).1 val = ((v.dispose).1, [])) := by
  have hd : (v.dispose).1.isDisposed = true := by
    by_cases h : v.isDisposed
    · simp [ViewState.dispose, h]
    · simp [ViewState.dispose, h]
  refine ⟨?_, ?_, ?_⟩
  · simp [ViewState.getTitle, hd]
  · simp [ViewState.setTitle, hd]
  · simp [ViewState.setTitleRun, ViewState.setTitle, hd]

/-- Claim C5: after a successful registration, disposing the returned
`Disposable` removes the provider entry for the view type and forwards
`$unregisterWebviewViewProvider`, after which registering a provider for
the same view type succeeds again without throwing. -/
theorem register_unregister_roundtrip (s : ViewsState) (ext : Nat) (vt : String)
    (p : Nat) (s₁ : ViewsState) (rpcs : List Rpc)
    (hreg : s.registerWebviewViewProvider ext vt p = Except.ok (s₁, rpcs)) :
    (lookupAL s₁.viewProviders vt = some ⟨p, ext⟩)
    ∧ ((s₁.unregisterWebviewViewProvider vt).2
        = [Rpc.unregisterWebviewViewProvider vt])
    ∧ (lookupAL (s₁.unregisterWebviewViewProvider vt).1.viewProviders vt = none)
    ∧ (∀ ext2 p2, ∃ s₂ rpcs₂,
        ((s₁.unregisterWebviewViewProvider vt).1).registerWebviewViewProvider
          ext2 vt p2 = Except.ok (s₂, rpcs₂)) := by
  have hs₁ : s₁.viewProviders = (vt, ⟨p, ext⟩) :: s.viewProviders := by
    by_cases hk : (lookupAL s.viewProviders vt).isSome
    · simp [ViewsState.registerWebviewViewProvider, hk] at hreg
    · simp [ViewsState.registerWebviewViewProvider, hk] at hreg
      rw [← hreg.1]
  refine ⟨?_, rfl, ?_, ?_⟩
  · simp [hs₁, lookupAL]
  · simp [ViewsState.unregisterWebviewViewProvider, lookupAL_eraseKey_self]
  · intro ext2 p2
    have h1 : lookupAL ((s₁.unregisterWebviewViewProvider vt).1.viewProviders) vt
        = none := by
      simp [ViewsState.unregisterWebviewViewProvider, lookupAL_eraseKey_self]
    refine ⟨{ (s₁.unregisterWebviewViewProvider vt).1 with
        viewProviders := (vt, ⟨p2, ext2⟩)
          :: (s₁.unregisterWebviewViewProvider vt).1.viewProviders },
      [Rpc.registerWebviewViewProvider vt], ?_⟩
    simp [ViewsState.registerWebviewViewProvider, h1]

/-- Witness for `register_unregister_roundtrip`: a concrete register and
dispose round trip for view type `a` from the fresh state. -/
theorem register_unregister_roundtrip_witness :
    lookupAL (ViewsState.unregisterWebviewViewProvider
      { viewProviders := [("a", ⟨1, 0⟩)], webviewViews := [] } "a").1.viewProviders
      "a" = none :=
  (register_unregister_roundtrip initState 0 "a" 1
    { viewProviders := [("a", ⟨1, 0⟩)], webviewViews := [] }
    [Rpc.registerWebviewViewProvider "a"] (by rfl)).2.2.1

/-- Claim C6: `dispose` is idempotent: the first call on a not-yet-disposed
view marks it disposed and fires `onDidDispose` exactly once, and every
further call is a no-op that changes no state and fires no event. -/
theorem dispose_idempotent (v : ViewState) (h : v.isDisposed = false) :
    (v.dispose = ({ v with isDisposed := true }, [ViewEvent.onDidDispose]))
    ∧ ((v.dispose).1.dispose = ((v.dispose).1, [])) := by
  constructor
  · simp [ViewState.dispose, h]
  · simp [ViewState.dispose, h]

/-- Witness for `dispose_idempotent` on a concrete fresh view. -/
theorem dispose_idempotent_witness :
    ViewState.dispose sampleView
      = ({ sampleView with isDisposed := true }, [ViewEvent.onDidDispose]) :=
  (dispose_idempotent sampleView rfl).1

/-- Claim C7: the visibility relay fires `onDidChangeVisibility` exactly
when the new value differs from the current one, afterwards the `visible`
getter returns the new value, and an unchanged value changes no state and
fires no event; `$onDidChangeWebviewViewVisibility` applies this to the
wrapper stored under the handle. -/
theorem setVisible_spec (v : ViewState) (b : Bool) (s : ViewsState)
    (hd : String) :
    ((v._setVisible b).1.visible = b)
    ∧ ((v._setVisible b).2 = [ViewEvent.onDidChangeVisibility] ↔
        ¬(b = v.isVisible))
    ∧ (b = v.isVisible → v._setVisible b = (v, []))
    ∧ (lookupAL s.webviewViews hd = some v →
        s.onDidChangeWebviewViewVisibility hd b
          = Except.ok
            ({ s with webviewViews :=
                updateKey s.webviewViews hd (fun w => (w._setVisible b).1) },
              ((v._setVisible b).2).map (Effect.viewEvent hd))
        ∧ lookupAL (updateKey s.webviewViews hd
            (fun w => (w._setVisible b).1)) hd = some (v._setVisible b).1) := by
  refine ⟨?_, ?_, ?_, ?_⟩
  · by_cases hb : b = v.isVisible
    · simp [ViewState._setVisible, ViewState.visible, hb]
    · simp [ViewState._setVisible, ViewState.visible, hb]
  · by_cases hb : b = v.isVisible
    · simp [ViewState._setVisible, hb]
    · simp [ViewState._setVisible, hb]
  · intro hb
    simp [ViewState._setVisible, hb]
  · intro hl
    constructor
    · simp [ViewsState.onDidChangeWebviewViewVisibility,
        ViewsState.getWebviewView, hl]
    · simp [lookupAL_updateKey_self, hl]

/-- Witness for `setVisible_spec`: setting the current visibility value on
a concrete view changes nothing and fires nothing. -/
theorem setVisible_spec_witness :
    ViewState._setVisible sampleView true = (sampleView, []) :=
  (setVisible_spec sampleView true initState "h").2.2.1 rfl

/-- Claim C8: on a not-disposed view, assigning the current title again
changes nothing and sends no `$setWebviewViewTitle` message, while
assigning a different value stores exactly that value and sends exactly
one `$setWebviewViewTitle` message carrying it, leaving every other field
of the view unchanged. -/
theorem setTitle_spec (v : ViewState) (val : Option String)
    (h : v.isDisposed = false) :
    (v.title = val → v.setTitle val = Except.ok (v, []))
    ∧ (¬(v.title = val) → ∃ v', v.setTitle val
          = Except.ok (v', [Rpc.setWebviewViewTitle v.handle val])
        ∧ v'.title = val ∧ v'.handle = v.handle ∧ v'.viewType = v.viewType
        ∧ v'.webview = v.webview ∧ v'.isDisposed = v.isDisposed
        ∧ v'.isVisible = v.isVisible) := by
  constructor
  · intro ht
    simp [ViewState.setTitle, h, ht]
  · intro ht
    refine ⟨{ v with title := val }, ?_, rfl, rfl, rfl, rfl, rfl, rfl⟩
    simp [ViewState.setTitle, h, ht]

/-- Witness for `setTitle_spec`: reassigning the current (empty) title on
a concrete view is a no-op with no RPC message. -/
theorem setTitle_spec_witness :
    ViewState.setTitle sampleView none = Except.ok (sampleView, []) :=
  (setTitle_spec sampleView none rfl).1 rfl

/-- Claim C9: a successful `$resolveWebviewView` call invokes the
registered provider with the very cancellation token the handler itself
received, passed through unchanged. -/
theorem resolve_token_passthrough (s : ViewsState) (h vt : String)
    (st tok : Nat) (s' : ViewsState) (effs : List Effect)
    (hok : s.resolveWebviewView h vt st tok = Except.ok (s', effs)) :
    ∃ entry, lookupAL s.viewProviders vt = some entry
      ∧ effs = [Effect.createWebview h entry.extension,
          Effect.resolveCall entry.provider
            { handle := h, viewType := vt, webview := h,
              isDisposed := false, isVisible := true, title := none } st tok]
      ∧ (∀ p w st2 tk, Effect.resolveCall p w st2 tk ∈ effs → tk = tok) := by
  cases hl : lookupAL s.viewProviders vt with
  | none => simp [ViewsState.resolveWebviewView, hl] at hok
  | some entry =>
    simp [ViewsState.resolveWebviewView, hl] at hok
    refine ⟨entry, rfl, hok.2.symm, ?_⟩
    intro p w st2 tk hm
    rw [← hok.2] at hm
    simp at hm
    exact hm.2.2.2

/-- Witness for `resolve_token_passthrough`: resolving view type `a` with
token `7` on the sample registry calls provider `1` with token `7`. -/
theorem resolve_token_passthrough_witness :
    ∃ entry, lookupAL sampleRegistry.viewProviders "a" = some entry
      ∧ [Effect.createWebview "h" 2, Effect.resolveCall 1 sampleView 5 7]
        = [Effect.createWebview "h" entry.extension,
          Effect.resolveCall entry.provider sampleView 5 7]
      ∧ (∀ p w st2 tk, Effect.resolveCall p w st2 tk ∈
          [Effect.createWebview "h" 2, Effect.resolveCall 1 sampleView 5 7]
          → tk = 7) :=
  resolve_token_passthrough sampleRegistry "h" "a" 5 7
    { viewProviders := sampleRegistry.viewProviders,
      webviewViews := [("h", sampleView)] }
    [Effect.createWebview "h" 2, Effect.resolveCall 1 sampleView 5 7] (by rfl)

/-- Claim C10: the `visible`, `viewType` and `webview` getters perform no
disposal check and still return the stored values after `dispose`; in
particular `visible` returns the last value set before disposal; only the
`title` accessors guard against disposal. -/
theorem getters_after_dispose (v : ViewState) (b : Bool) :
    ((v.dispose).1.visible = v.visible)
    ∧ ((v.dispose).1.getViewType = v.getViewType)
    ∧ ((v.dispose).1.getWebview = v.getWebview)
    ∧ ((((v._setVisible b).1.dispose).1).visible = b)
    ∧ (∃ e, (v.dispose).1.getTitle = Except.error e) := by
  refine ⟨?_, ?_, ?_, ?_, ?_⟩
  · by_cases h : v.isDisposed <;>
      simp [ViewState.dispose, ViewState.visible, h]
  · by_cases h : v.isDisposed <;>
      simp [ViewState.dispose, ViewState.getViewType, h]
  · by_cases h : v.isDisposed <;>
      simp [ViewState.dispose, ViewState.getWebview, h]
  · by_cases hb : b = v.isVisible <;>
      by_cases h : v.isDisposed <;>
        simp [ViewState._setVisible, ViewState.dispose, ViewState.visible, hb, h]
  · refine ⟨"Webview is disposed", ?_⟩
    by_cases h : v.isDisposed <;>
      simp [ViewState.dispose, ViewState.getTitle, h]
